import Mathlib

/- Shallow embedding of
`src/vs/workbench/contrib/chat/browser/chatContentParts/chatTodoListWidget.ts`.
The widget is modelled as a pure state machine: the DOM nodes the code
mutates become fields of `WidgetState`, the injected
`IChatTodoListService` storage becomes a function from session id to
todo list, and each method becomes a state-transforming function.
Height-change emissions of the `_onDidChangeHeight` emitter are counted
in `heightEvents`. -/
namespace ChatTodoListWidget

/-- A todo record as consumed by the widget (fields `title` and `status`
of `IChatTodo` are the only ones the widget reads). -/
structure IChatTodo where
  title : String
  status : String
  deriving Repr, DecidableEq

/-- One rendered `.todo-item` node: the codicon class and inline color of
its `.todo-status-icon`, and the text content of its `.todo-title`. -/
structure TodoItemNode where
  iconClass : String
  iconColor : String
  labelText : String
  deriving Repr, DecidableEq

/-- Observable state of the widget: the private fields `_isExpanded` and
`_currentSessionId`, the mutable style and attribute slots of the DOM
nodes the methods touch, the children of `todoListContainer`, and a
count of height-change emissions. -/
structure WidgetState where
  isExpanded : Bool
  currentSessionId : Option String
  domNodeDisplay : String
  clearButtonContainerDisplay : String
  todoListContainerDisplay : String
  todoListItems : List TodoItemNode
  ariaExpanded : String
  expandIconClass : String
  titleText : String
  heightEvents : Nat
  deriving Repr, DecidableEq

/-- The storage adapter obtained from
`chatTodoListService.getChatTodoListStorage()`: per session id, an
ordered todo list (empty when nothing is stored). -/
def TodoListStorage : Type := String → List IChatTodo

/-- `todoListStorage.getTodoList(sessionId)`. -/
def getTodoList (storage : TodoListStorage) (sessionId : String) : List IChatTodo :=
  storage sessionId

/-- `todoListStorage.setTodoList(sessionId, list)`: full replace under one key. -/
def setTodoList (storage : TodoListStorage) (sessionId : String)
    (todoList : List IChatTodo) : TodoListStorage :=
  fun k => if k = sessionId then todoList else storage k

/-- `getStatusIconClass` (lines 185-195): a `switch` on the status string
where the `not-started` case falls through to `default`. -/
def getStatusIconClass (status : String) : String :=
  if status = "completed" then "codicon-check"
  else if status = "in-progress" then "codicon-record"
  else "codicon-circle-large-outline"

/-- `getStatusIconColor` (lines 197-207): a `switch` on the status string
where the `not-started` case falls through to `default`. -/
def getStatusIconColor (status : String) : String :=
  if status = "completed" then "var(--vscode-charts-green)"
  else if status = "in-progress" then "var(--vscode-charts-blue)"
  else "var(--vscode-foreground)"

/-- The `.todo-item` node built for `todo` at 0-based `index` in the
`forEach` body of `renderTodoList` (lines 139-157): status icon class and
color from the two mappings, label text `(index+1) + ". " + title`. -/
def renderTodoItem (index : Nat) (todo : IChatTodo) : TodoItemNode :=
  { iconClass := getStatusIconClass todo.status
    iconColor := getStatusIconColor todo.status
    labelText := toString (index + 1) ++ ". " ++ todo.title }

/-- The list of item nodes appended by `todoList.forEach((todo, index) => ...)`
when the running index starts at `index`. -/
def renderItemsFrom (index : Nat) : List IChatTodo → List TodoItemNode
  | [] => []
  | todo :: rest => renderTodoItem index todo :: renderItemsFrom (index + 1) rest

/-- `renderTodoList` (lines 131-158): clears `todoListContainer`
(`textContent = ""`), rewrites the header title element (which always
exists in the constructed widget) to the localized `Tasks` string, then
appends one `.todo-item` per record in input order. -/
def renderTodoList (w : WidgetState) (todoList : List IChatTodo) : WidgetState :=
  { w with
    todoListItems := renderItemsFrom 0 todoList
    titleText := "Tasks" }

/-- The JavaScript truthiness test `!this._currentSessionId` negated:
`undefined` and the empty string are both falsy, every other string is
truthy. -/
def sessionIdTruthy : Option String → Bool
  | none => false
  | some sessionId => !(sessionId == "")

/-- The hidden branch of `updateTodoDisplay`: `domNode` and
`clearButtonContainer` get `display: none` and a height change fires. -/
def hideAndFire (w : WidgetState) : WidgetState :=
  { w with
    domNodeDisplay := "none"
    clearButtonContainerDisplay := "none"
    heightEvents := w.heightEvents + 1 }

/-- `updateTodoDisplay` (lines 108-129). The guard
`if (!this._currentSessionId)` is the truthiness test, so a `some ""`
session takes the early hidden return exactly like `undefined`. -/
def updateTodoDisplay (storage : TodoListStorage) (w : WidgetState) : WidgetState :=
  match w.currentSessionId with
  | none => hideAndFire w
  | some sessionId =>
    if sessionId = "" then hideAndFire w
    else
      let todoList := getTodoList storage sessionId
      if todoList.length > 0 then
        let w1 := renderTodoList w todoList
        { w1 with
          domNodeDisplay := "block"
          clearButtonContainerDisplay := "flex"
          heightEvents := w1.heightEvents + 1 }
      else hideAndFire w

/-- The `height` getter (lines 35-37): 0 when `domNode` has
`display: none`, otherwise the measured `offsetHeight` (a non-negative
integer supplied by the host box-measurement system). -/
def height (w : WidgetState) (offsetHeight : Nat) : Nat :=
  if w.domNodeDisplay = "none" then 0 else offsetHeight

/-- `toggleExpanded` (lines 160-173): flips `_isExpanded`, forces the
chevron classes from the new flag, writes `aria-expanded`, sets the list
container display and fires a height change. -/
def toggleExpanded (w : WidgetState) : WidgetState :=
  let e := !w.isExpanded
  { w with
    isExpanded := e
    expandIconClass := if e then "codicon-chevron-down" else "codicon-chevron-right"
    ariaExpanded := if e then "true" else "false"
    todoListContainerDisplay := if e then "block" else "none"
    heightEvents := w.heightEvents + 1 }

/-- Widget plus its injected storage service, so that methods reading or
writing storage are total functions on one state. -/
structure ChatTodoSystem where
  widget : WidgetState
  storage : TodoListStorage

/-- `clearAllTodos` (lines 175-183): early return on a falsy
`_currentSessionId` (including the empty string), otherwise store `[]`
under the current session and run `updateTodoDisplay`. -/
def clearAllTodos (s : ChatTodoSystem) : ChatTodoSystem :=
  match s.widget.currentSessionId with
  | none => s
  | some sessionId =>
    if sessionId = "" then s
    else
      let storage1 := setTodoList s.storage sessionId []
      { widget := updateTodoDisplay storage1 s.widget, storage := storage1 }

/-- `updateSessionId` (lines 103-106): store the new id, then refresh. -/
def updateSessionId (s : ChatTodoSystem) (sessionId : Option String) : ChatTodoSystem :=
  { s with widget := updateTodoDisplay s.storage { s.widget with currentSessionId := sessionId } }

/-- A bare refresh of the display from current state (the spec operation
`refresh()`, realized by `updateTodoDisplay`). -/
def refresh (s : ChatTodoSystem) : ChatTodoSystem :=
  { s with widget := updateTodoDisplay s.storage s.widget }

/-- `toggleExpanded` lifted to the system: it never touches storage. -/
def sysToggle (s : ChatTodoSystem) : ChatTodoSystem :=
  { s with widget := toggleExpanded s.widget }

/-- Widget state right after the constructor ran `createChatTodoWidget`
(lines 27-86): expanded, no session, root hidden, list container shown
as `block`, chevron down, `aria-expanded` true, title `Tasks`, no items,
no emissions yet; the clear button container has no display style set. -/
def initialWidget : WidgetState :=
  { isExpanded := true
    currentSessionId := none
    domNodeDisplay := "none"
    clearButtonContainerDisplay := ""
    todoListContainerDisplay := "block"
    todoListItems := []
    ariaExpanded := "true"
    expandIconClass := "codicon-chevron-down"
    titleText := "Tasks"
    heightEvents := 0 }

/-- The externally triggerable operations of the widget: a session
switch from the host, a header activation (click or Enter/Space), a
clear-button click, and a display refresh. -/
inductive WidgetOp where
  | setSession (sessionId : Option String)
  | toggle
  | clearAll
  | redisplay

/-- Apply one operation to the system. -/
def applyOp : WidgetOp → ChatTodoSystem → ChatTodoSystem
  | WidgetOp.setSession sessionId, s => updateSessionId s sessionId
  | WidgetOp.toggle, s => sysToggle s
  | WidgetOp.clearAll, s => clearAllTodos s
  | WidgetOp.redisplay, s => refresh s

/-- Run a list of operations in order. -/
def runOps (ops : List WidgetOp) (s : ChatTodoSystem) : ChatTodoSystem :=
  ops.foldl (fun acc op => applyOp op acc) s

/-- View-state soundness: the chevron class, the `aria-expanded`
attribute and the list-container display agree with `_isExpanded`.
It holds at construction and every method rewrites these slots from the
flag, so every reachable widget state satisfies it. -/
def ViewConsistent (w : WidgetState) : Prop :=
  w.ariaExpanded = (if w.isExpanded then "true" else "false") ∧
  w.todoListContainerDisplay = (if w.isExpanded then "block" else "none") ∧
  w.expandIconClass =
    (if w.isExpanded then "codicon-chevron-down" else "codicon-chevron-right")

/-- All widget fields except the emission counter agree: the observable
view state (including rendered items) and, pointwise, the storage. -/
def SameObservable (a b : ChatTodoSystem) : Prop :=
  a.widget.isExpanded = b.widget.isExpanded ∧
  a.widget.currentSessionId = b.widget.currentSessionId ∧
  a.widget.domNodeDisplay = b.widget.domNodeDisplay ∧
  a.widget.clearButtonContainerDisplay = b.widget.clearButtonContainerDisplay ∧
  a.widget.todoListContainerDisplay = b.widget.todoListContainerDisplay ∧
  a.widget.todoListItems = b.widget.todoListItems ∧
  a.widget.ariaExpanded = b.widget.ariaExpanded ∧
  a.widget.expandIconClass = b.widget.expandIconClass ∧
  a.widget.titleText = b.widget.titleText ∧
  ∀ k, a.storage k = b.storage k

/-- A concrete todo record used in concrete evaluations. -/
def demoTodo : IChatTodo := { title := "Write spec", status := "completed" }

/-- A second concrete todo record. -/
def demoTodo2 : IChatTodo := { title := "Review", status := "in-progress" }

/-- A system whose current session id is the defined but empty string
`""` while storage holds a non-empty list for every session. -/
def emptySidSystem : ChatTodoSystem :=
  { widget := { initialWidget with currentSessionId := some "" }
    storage := fun _ => [demoTodo] }

/-- A system whose active session S1 holds the two demo records. -/
def demoSystem : ChatTodoSystem :=
  { widget := { initialWidget with currentSessionId := some "S1" }
    storage := fun k => if k = "S1" then [demoTodo, demoTodo2] else [] }

-- Helper lemmas shared by the claim proofs.

theorem sameObservable_refl (s : ChatTodoSystem) : SameObservable s s :=
  ⟨rfl, rfl, rfl, rfl, rfl, rfl, rfl, rfl, rfl, fun _ => rfl⟩

theorem renderItemsFrom_length (i : Nat) (l : List IChatTodo) :
    (renderItemsFrom i l).length = l.length := by
  induction l generalizing i with
  | nil => rfl
  | cons t rest ih => simp [renderItemsFrom, ih]

theorem renderItemsFrom_getElem (i j : Nat) (l : List IChatTodo) (h : j < l.length) :
    (renderItemsFrom i l)[j]? = some (renderTodoItem (i + j) (l.get ⟨j, h⟩)) := by
  induction l generalizing i j with
  | nil => simp at h
  | cons t rest ih =>
    cases j with
    | zero => simp [renderItemsFrom]
    | succ j =>
      have hj : j < rest.length := Nat.lt_of_succ_lt_succ h
      have := ih (i + 1) j hj
      simp only [renderItemsFrom, List.getElem?_cons_succ, this, List.get_cons_succ]
      have harith : i + 1 + j = i + (j + 1) := by omega
      rw [harith]

theorem updateTodoDisplay_titleText (storage : TodoListStorage) (w : WidgetState)
    (h : w.titleText = "Tasks") : (updateTodoDisplay storage w).titleText = "Tasks" := by
  unfold updateTodoDisplay
  cases hs : w.currentSessionId with
  | none => simp [hs, hideAndFire, h]
  | some sessionId =>
    by_cases he : sessionId = "" <;>
      by_cases hl : (getTodoList storage sessionId).length > 0 <;>
        simp [hs, he, hl, hideAndFire, renderTodoList, h]

theorem updateTodoDisplay_view_fields (storage : TodoListStorage) (w : WidgetState) :
    (updateTodoDisplay storage w).isExpanded = w.isExpanded ∧
    (updateTodoDisplay storage w).ariaExpanded = w.ariaExpanded ∧
    (updateTodoDisplay storage w).todoListContainerDisplay = w.todoListContainerDisplay ∧
    (updateTodoDisplay storage w).expandIconClass = w.expandIconClass ∧
    (updateTodoDisplay storage w).currentSessionId = w.currentSessionId := by
  unfold updateTodoDisplay
  cases hs : w.currentSessionId with
  | none => simp [hs, hideAndFire]
  | some sessionId =>
    by_cases he : sessionId = "" <;>
      by_cases hl : (getTodoList storage sessionId).length > 0 <;>
        simp [hs, he, hl, hideAndFire, renderTodoList]

theorem titleText_applyOp (op : WidgetOp) (s : ChatTodoSystem)
    (h : s.widget.titleText = "Tasks") : (applyOp op s).widget.titleText = "Tasks" := by
  cases op with
  | setSession sessionId =>
    exact updateTodoDisplay_titleText s.storage { s.widget with currentSessionId := sessionId } h
  | toggle => simpa [applyOp, sysToggle, toggleExpanded]
  | clearAll =>
    unfold applyOp clearAllTodos
    cases hs : s.widget.currentSessionId with
    | none => simp [hs, h]
    | some sessionId =>
      by_cases he : sessionId = ""
      · simp [hs, he, h]
      · simpa [hs, he] using
          updateTodoDisplay_titleText (setTodoList s.storage sessionId []) s.widget h
  | redisplay => exact updateTodoDisplay_titleText s.storage s.widget h

theorem titleText_runOps (ops : List WidgetOp) (s : ChatTodoSystem)
    (h : s.widget.titleText = "Tasks") : (runOps ops s).widget.titleText = "Tasks" := by
  induction ops generalizing s with
  | nil => exact h
  | cons op rest ih => exact ih (applyOp op s) (titleText_applyOp op s h)

theorem toggleExpanded_viewConsistent (w : WidgetState) :
    ViewConsistent (toggleExpanded w) := ⟨rfl, rfl, rfl⟩

theorem viewConsistent_initial : ViewConsistent initialWidget := ⟨rfl, rfl, rfl⟩

theorem viewConsistent_updateTodoDisplay (storage : TodoListStorage) (w : WidgetState)
    (h : ViewConsistent w) : ViewConsistent (updateTodoDisplay storage w) := by
  obtain ⟨h1, h2, h3⟩ := h
  obtain ⟨f1, f2, f3, f4, f5⟩ := updateTodoDisplay_view_fields storage w
  exact ⟨by rw [f2, f1, h1], by rw [f3, f1, h2], by rw [f4, f1, h3]⟩

theorem viewConsistent_applyOp (op : WidgetOp) (s : ChatTodoSystem)
    (h : ViewConsistent s.widget) : ViewConsistent (applyOp op s).widget := by
  cases op with
  | setSession sessionId =>
    exact viewConsistent_updateTodoDisplay s.storage
      { s.widget with currentSessionId := sessionId } h
  | toggle => exact toggleExpanded_viewConsistent s.widget
  | clearAll =>
    unfold applyOp clearAllTodos
    cases hs : s.widget.currentSessionId with
    | none => simp only [hs]; exact h
    | some sessionId =>
      by_cases he : sessionId = ""
      · simp only [hs, if_pos he]; exact h
      · simpa [hs, he] using
          viewConsistent_updateTodoDisplay (setTodoList s.storage sessionId []) s.widget h
  | redisplay => exact viewConsistent_updateTodoDisplay s.storage s.widget h

theorem viewConsistent_runOps (ops : List WidgetOp) (s : ChatTodoSystem)
    (h : ViewConsistent s.widget) : ViewConsistent (runOps ops s).widget := by
  induction ops generalizing s with
  | nil => exact h
  | cons op rest ih => exact ih (applyOp op s) (viewConsistent_applyOp op s h)

theorem iterate_toggle_isExpanded (w : WidgetState) (n : Nat) :
    (toggleExpanded^[n] w).isExpanded =
      if Even n then w.isExpanded else !w.isExpanded := by
  induction n with
  | zero => simp
  | succ n ih =>
    rw [Function.iterate_succ_apply']
    have hstep : (toggleExpanded (toggleExpanded^[n] w)).isExpanded =
        !(toggleExpanded^[n] w).isExpanded := rfl
    rw [hstep, ih]
    by_cases h : Even n
    · simp [h, Nat.even_add_one]
    · simp [h, Nat.even_add_one]

theorem iterate_toggle_consistent (w : WidgetState) (n : Nat) (h : 0 < n) :
    ViewConsistent (toggleExpanded^[n] w) := by
  obtain ⟨m, rfl⟩ : ∃ m, n = m + 1 := ⟨n - 1, by omega⟩
  rw [Function.iterate_succ_apply']
  exact toggleExpanded_viewConsistent _

-- Claim theorems.

/-- C3: the status-to-presentation mapping is a total, deterministic
function over every string status: `completed` maps to the check glyph
and green color token, `in-progress` to the filled record glyph and blue
token, and `not-started` together with every string outside the
enumerated set maps to the open-circle-outline glyph and the neutral
foreground color, identical to the `not-started` pair, never a
failure. -/
theorem c3_status_mapping_total (s : String)
    (h1 : s ≠ "completed") (h2 : s ≠ "in-progress") :
    getStatusIconClass "completed" = "codicon-check" ∧
    getStatusIconColor "completed" = "var(--vscode-charts-green)" ∧
    getStatusIconClass "in-progress" = "codicon-record" ∧
    getStatusIconColor "in-progress" = "var(--vscode-charts-blue)" ∧
    getStatusIconClass "not-started" = "codicon-circle-large-outline" ∧
    getStatusIconColor "not-started" = "var(--vscode-foreground)" ∧
    getStatusIconClass s = getStatusIconClass "not-started" ∧
    getStatusIconColor s = getStatusIconColor "not-started" := by
  refine ⟨by decide, by decide, by decide, by decide, by decide, by decide, ?_, ?_⟩ <;>
    simp [getStatusIconClass, getStatusIconColor, h1, h2]

/-- C3 witness: the mapping evaluated at the unrecognized status
`mystery` agrees with the `not-started` pair. -/
theorem c3_status_mapping_total_witness :
    getStatusIconClass "completed" = "codicon-check" ∧
    getStatusIconColor "completed" = "var(--vscode-charts-green)" ∧
    getStatusIconClass "in-progress" = "codicon-record" ∧
    getStatusIconColor "in-progress" = "var(--vscode-charts-blue)" ∧
    getStatusIconClass "not-started" = "codicon-circle-large-outline" ∧
    getStatusIconColor "not-started" = "var(--vscode-foreground)" ∧
    getStatusIconClass "mystery" = getStatusIconClass "not-started" ∧
    getStatusIconColor "mystery" = getStatusIconColor "not-started" :=
  c3_status_mapping_total "mystery" (by decide) (by decide)

/-- C5: renderTodoList replaces the previously rendered items wholesale,
so it is idempotent: rendering the same list twice ends in exactly the
state of rendering it once, and the resulting items do not depend on the
items previously in the container. -/
theorem c5_render_idempotent (w w2 : WidgetState) (l : List IChatTodo) :
    renderTodoList (renderTodoList w l) l = renderTodoList w l ∧
    (renderTodoList w l).todoListItems = (renderTodoList w2 l).todoListItems :=
  ⟨rfl, rfl⟩

/-- C8: toggleExpanded never changes the session id and never reads or
writes the stored todo list: storage is pointwise unchanged, the session
id, rendered items, root display, clear-control display and title are
unchanged; only the expanded flag, chevron glyph, aria attribute and
list-body display change, and exactly one height-change emission
fires. -/
theorem c8_toggle_frame (s : ChatTodoSystem) :
    (sysToggle s).widget.currentSessionId = s.widget.currentSessionId ∧
    (∀ k, (sysToggle s).storage k = s.storage k) ∧
    (sysToggle s).widget.todoListItems = s.widget.todoListItems ∧
    (sysToggle s).widget.domNodeDisplay = s.widget.domNodeDisplay ∧
    (sysToggle s).widget.clearButtonContainerDisplay =
      s.widget.clearButtonContainerDisplay ∧
    (sysToggle s).widget.titleText = s.widget.titleText ∧
    (sysToggle s).widget.isExpanded = !s.widget.isExpanded ∧
    (sysToggle s).widget.ariaExpanded =
      (if !s.widget.isExpanded then "true" else "false") ∧
    (sysToggle s).widget.todoListContainerDisplay =
      (if !s.widget.isExpanded then "block" else "none") ∧
    (sysToggle s).widget.expandIconClass =
      (if !s.widget.isExpanded then "codicon-chevron-down"
       else "codicon-chevron-right") ∧
    (sysToggle s).widget.heightEvents = s.widget.heightEvents + 1 :=
  ⟨rfl, fun _ => rfl, rfl, rfl, rfl, rfl, rfl, rfl, rfl, rfl, rfl⟩

/-- C9: the height getter is read-only (a pure function of the state and
the measured offsetHeight) and returns 0 whenever the root node has
display none, otherwise the measured pixel height; the result is a
non-negative integer. -/
theorem c9_height_query (w : WidgetState) (offsetHeight : Nat) :
    (w.domNodeDisplay = "none" → height w offsetHeight = 0) ∧
    (w.domNodeDisplay ≠ "none" → height w offsetHeight = offsetHeight) ∧
    0 ≤ height w offsetHeight := by
  refine ⟨fun h => ?_, fun h => ?_, Nat.zero_le _⟩ <;> simp [height, h]

/-- C9 witness: the hidden initial widget measures 0 and a shown widget
measures the host-reported 7. -/
theorem c9_height_query_witness :
    height initialWidget 7 = 0 ∧
    height { initialWidget with domNodeDisplay := "block" } 7 = 7 :=
  ⟨(c9_height_query initialWidget 7).1 rfl,
   (c9_height_query { initialWidget with domNodeDisplay := "block" } 7).2.1
     (by decide)⟩

/-- C10: when updateTodoDisplay takes a hiding path (session id falsy or
fetched list empty, i.e. whenever it leaves the root with display none),
the previously rendered item nodes are left unchanged inside the hidden
list container. -/
theorem c10_hiding_preserves_items (storage : TodoListStorage) (w : WidgetState)
    (h : (updateTodoDisplay storage w).domNodeDisplay = "none") :
    (updateTodoDisplay storage w).todoListItems = w.todoListItems := by
  unfold updateTodoDisplay at h ⊢
  cases hs : w.currentSessionId with
  | none => simp [hs, hideAndFire]
  | some sessionId =>
    by_cases he : sessionId = ""
    · simp [hs, he, hideAndFire]
    · by_cases hl : (getTodoList storage sessionId).length > 0
      · rw [hs] at h; simp [he, hl, hideAndFire] at h
      · simp [hs, he, hl, hideAndFire]

/-- C10 witness: hiding a refresh over an empty stored list keeps the
one stale rendered item in the container. -/
theorem c10_hiding_preserves_items_witness :
    (updateTodoDisplay (fun _ => [])
        { initialWidget with
          currentSessionId := some "session1"
          todoListItems := [renderTodoItem 0 demoTodo] }).todoListItems =
      [renderTodoItem 0 demoTodo] :=
  c10_hiding_preserves_items (fun _ => [])
    { initialWidget with
      currentSessionId := some "session1"
      todoListItems := [renderTodoItem 0 demoTodo] } (by decide)

theorem updateTodoDisplay_empty (storage : TodoListStorage) (w : WidgetState)
    (sessionId : String) (hs : w.currentSessionId = some sessionId)
    (he : sessionId ≠ "") (hl : getTodoList storage sessionId = []) :
    updateTodoDisplay storage w = hideAndFire w := by
  unfold updateTodoDisplay
  simp only [hs, if_neg he, hl]
  simp

theorem clearAllTodos_eq (s : ChatTodoSystem) (sessionId : String)
    (hs : s.widget.currentSessionId = some sessionId) (he : sessionId ≠ "") :
    clearAllTodos s =
      { widget := hideAndFire s.widget
        storage := setTodoList s.storage sessionId [] } := by
  unfold clearAllTodos
  simp only [hs, if_neg he]
  congr 1
  exact updateTodoDisplay_empty _ _ sessionId hs he (by simp [getTodoList, setTodoList])

/-- C4: renderTodoList produces exactly one item node per record, in
input order with no sorting or filtering: the output has the same length
as the input, and the node at 0-based position i carries the label
`(i+1) + ". " + title` of the record at position i together with the
glyph and the color selected by the status mappings for its status. -/
theorem c4_render_items (w : WidgetState) (l : List IChatTodo) (i : Nat)
    (h : i < l.length) :
    (renderTodoList w l).todoListItems.length = l.length ∧
    (renderTodoList w l).todoListItems[i]? =
      some { iconClass := getStatusIconClass (l.get ⟨i, h⟩).status
             iconColor := getStatusIconColor (l.get ⟨i, h⟩).status
             labelText := toString (i + 1) ++ ". " ++ (l.get ⟨i, h⟩).title } := by
  constructor
  · simpa [renderTodoList] using renderItemsFrom_length 0 l
  · simpa [renderTodoList, renderTodoItem] using renderItemsFrom_getElem 0 i l h

/-- C4 witness: rendering the two demo records puts the in-progress
record second, labeled `2. Review` with the record glyph and blue
token. -/
theorem c4_render_items_witness :
    (renderTodoList initialWidget [demoTodo, demoTodo2]).todoListItems.length = 2 ∧
    (renderTodoList initialWidget [demoTodo, demoTodo2]).todoListItems[1]? =
      some { iconClass := "codicon-record"
             iconColor := "var(--vscode-charts-blue)"
             labelText := "2. Review" } := by
  have h := c4_render_items initialWidget [demoTodo, demoTodo2] 1 (by decide)
  refine ⟨h.1, ?_⟩
  rw [h.2]
  decide

/-- C6: toggleExpanded unconditionally flips the expanded flag, so from
any view-consistent starting state (every state reachable from
construction is view-consistent), applying it an even number of times
returns the expanded flag, the aria-expanded attribute and the list-body
visibility to their pre-toggle values, and an odd number of times
inverts them. -/
theorem c6_toggle_parity (w : WidgetState) (n : Nat) (h : ViewConsistent w) :
    (Even n →
      (toggleExpanded^[n] w).isExpanded = w.isExpanded ∧
      (toggleExpanded^[n] w).ariaExpanded = w.ariaExpanded ∧
      (toggleExpanded^[n] w).todoListContainerDisplay =
        w.todoListContainerDisplay) ∧
    (¬Even n →
      (toggleExpanded^[n] w).isExpanded = !w.isExpanded ∧
      (toggleExpanded^[n] w).ariaExpanded =
        (if w.isExpanded then "false" else "true") ∧
      (toggleExpanded^[n] w).todoListContainerDisplay =
        (if w.isExpanded then "none" else "block")) := by
  obtain ⟨h1, h2, h3⟩ := h
  constructor
  · intro hev
    rcases Nat.eq_zero_or_pos n with h0 | hpos
    · subst h0; simp
    · obtain ⟨c1, c2, c3⟩ := iterate_toggle_consistent w n hpos
      have hi := iterate_toggle_isExpanded w n
      rw [if_pos hev] at hi
      exact ⟨hi, by rw [c1, hi, h1], by rw [c2, hi, h2]⟩
  · intro hodd
    have hpos : 0 < n := by
      rcases Nat.eq_zero_or_pos n with h0 | hpos
      · exact absurd (h0 ▸ even_zero) hodd
      · exact hpos
    obtain ⟨c1, c2, c3⟩ := iterate_toggle_consistent w n hpos
    have hi := iterate_toggle_isExpanded w n
    rw [if_neg hodd] at hi
    refine ⟨hi, ?_, ?_⟩
    · rw [c1, hi]; cases hb : w.isExpanded <;> simp [hb]
    · rw [c2, hi]; cases hb : w.isExpanded <;> simp [hb]

/-- C6 witness: from the consistent initial widget, two toggles restore
the expanded flag and list-body display, one toggle inverts the
display. -/
theorem c6_toggle_parity_witness :
    (toggleExpanded^[2] initialWidget).isExpanded = initialWidget.isExpanded ∧
    (toggleExpanded^[2] initialWidget).todoListContainerDisplay =
      initialWidget.todoListContainerDisplay ∧
    (toggleExpanded^[1] initialWidget).todoListContainerDisplay = "none" := by
  refine ⟨?_, ?_, ?_⟩
  · exact ((c6_toggle_parity initialWidget 2 ⟨rfl, rfl, rfl⟩).1 (by decide)).1
  · exact ((c6_toggle_parity initialWidget 2 ⟨rfl, rfl, rfl⟩).1 (by decide)).2.2
  · exact ((c6_toggle_parity initialWidget 1 ⟨rfl, rfl, rfl⟩).2 (by decide)).2.2

/-- C7: renderTodoList is a pure function of its input list and the
status mappings, writing only into the list container: on every widget
state whose header title already reads `Tasks` (an invariant of every
reachable state, see titleText_runOps), all fields other than the list
container items are unchanged, the emission counter included, and the
items are determined by the input list alone. -/
theorem c7_render_frame (w : WidgetState) (l : List IChatTodo)
    (h : w.titleText = "Tasks") :
    (renderTodoList w l).isExpanded = w.isExpanded ∧
    (renderTodoList w l).currentSessionId = w.currentSessionId ∧
    (renderTodoList w l).domNodeDisplay = w.domNodeDisplay ∧
    (renderTodoList w l).clearButtonContainerDisplay =
      w.clearButtonContainerDisplay ∧
    (renderTodoList w l).todoListContainerDisplay =
      w.todoListContainerDisplay ∧
    (renderTodoList w l).ariaExpanded = w.ariaExpanded ∧
    (renderTodoList w l).expandIconClass = w.expandIconClass ∧
    (renderTodoList w l).titleText = w.titleText ∧
    (renderTodoList w l).heightEvents = w.heightEvents ∧
    (renderTodoList w l).todoListItems = renderItemsFrom 0 l :=
  ⟨rfl, rfl, rfl, rfl, rfl, rfl, rfl, h.symm, rfl, rfl⟩

/-- C7 witness: rendering the demo record over the freshly constructed
widget changes only the list container items. -/
theorem c7_render_frame_witness :
    (renderTodoList initialWidget [demoTodo]).isExpanded =
      initialWidget.isExpanded ∧
    (renderTodoList initialWidget [demoTodo]).currentSessionId =
      initialWidget.currentSessionId ∧
    (renderTodoList initialWidget [demoTodo]).domNodeDisplay =
      initialWidget.domNodeDisplay ∧
    (renderTodoList initialWidget [demoTodo]).clearButtonContainerDisplay =
      initialWidget.clearButtonContainerDisplay ∧
    (renderTodoList initialWidget [demoTodo]).todoListContainerDisplay =
      initialWidget.todoListContainerDisplay ∧
    (renderTodoList initialWidget [demoTodo]).ariaExpanded =
      initialWidget.ariaExpanded ∧
    (renderTodoList initialWidget [demoTodo]).expandIconClass =
      initialWidget.expandIconClass ∧
    (renderTodoList initialWidget [demoTodo]).titleText =
      initialWidget.titleText ∧
    (renderTodoList initialWidget [demoTodo]).heightEvents =
      initialWidget.heightEvents ∧
    (renderTodoList initialWidget [demoTodo]).todoListItems =
      renderItemsFrom 0 [demoTodo] :=
  c7_render_frame initialWidget [demoTodo] rfl

/-- C1 counterexample: with the defined session id `""` and a non-empty
stored list for it, a refresh leaves the root node and the clear control
at display none, because updateTodoDisplay tests JavaScript truthiness
of the session id and the empty string is falsy. -/
theorem c1_visibility_counterexample :
    emptySidSystem.widget.currentSessionId = some "" ∧
    (getTodoList emptySidSystem.storage "").length > 0 ∧
    (refresh emptySidSystem).widget.domNodeDisplay = "none" ∧
    (refresh emptySidSystem).widget.clearButtonContainerDisplay = "none" :=
  ⟨rfl, by decide, rfl, rfl⟩

/-- C1 amended: after updateTodoDisplay, the root node is visible
(display not none) iff the session id is truthy (defined and non-empty
as a string) and the list fetched for it is non-empty; the clear control
is visible iff the root is. -/
theorem c1_visibility_iff (storage : TodoListStorage) (w : WidgetState) :
    ((updateTodoDisplay storage w).domNodeDisplay ≠ "none" ↔
      (∃ sessionId, w.currentSessionId = some sessionId ∧ sessionId ≠ "" ∧
        (getTodoList storage sessionId).length > 0)) ∧
    ((updateTodoDisplay storage w).clearButtonContainerDisplay ≠ "none" ↔
      (updateTodoDisplay storage w).domNodeDisplay ≠ "none") := by
  unfold updateTodoDisplay
  cases hs : w.currentSessionId with
  | none => simp [hs, hideAndFire]
  | some sessionId =>
    by_cases he : sessionId = ""
    · subst he; simp [hs, hideAndFire]
    · by_cases hl : (getTodoList storage sessionId).length > 0
      · simp [hs, he, hl, hideAndFire]
      · simp [hs, he, hl, hideAndFire]

/-- C1 amended witness: refreshing the demo system shows the root node
(session S1 is truthy with a non-empty list) and the clear control
visibility tracks the root. -/
theorem c1_visibility_iff_witness :
    (updateTodoDisplay demoSystem.storage demoSystem.widget).domNodeDisplay ≠
      "none" ∧
    ((updateTodoDisplay demoSystem.storage
        demoSystem.widget).clearButtonContainerDisplay ≠ "none" ↔
      (updateTodoDisplay demoSystem.storage demoSystem.widget).domNodeDisplay ≠
        "none") :=
  ⟨(c1_visibility_iff demoSystem.storage demoSystem.widget).1.mpr
      ⟨"S1", rfl, by decide, by decide⟩,
   (c1_visibility_iff demoSystem.storage demoSystem.widget).2⟩

/-- C2 counterexample: with the defined session id `""` and a non-empty
stored list for it, clearAllTodos returns the whole system unchanged —
no empty list is written under the defined current session id and no
refresh happens. -/
theorem c2_clear_all_counterexample :
    emptySidSystem.widget.currentSessionId = some "" ∧
    clearAllTodos emptySidSystem = emptySidSystem ∧
    (clearAllTodos emptySidSystem).storage "" ≠ [] :=
  ⟨rfl, rfl, by decide⟩

/-- C2 amended: clearAllTodos is a no-op (not even an emission) whenever
the session id is falsy (undefined or the empty string); for a truthy
session id it writes the empty list to storage under that id and
refreshes; and calling it twice in a row leaves the same view state and
storage contents as calling it once. -/
theorem c2_clear_all (s : ChatTodoSystem) :
    (sessionIdTruthy s.widget.currentSessionId = false → clearAllTodos s = s) ∧
    (∀ sessionId, s.widget.currentSessionId = some sessionId → sessionId ≠ "" →
      (∀ k, (clearAllTodos s).storage k =
        if k = sessionId then [] else s.storage k) ∧
      (clearAllTodos s).widget =
        updateTodoDisplay (setTodoList s.storage sessionId []) s.widget) ∧
    SameObservable (clearAllTodos (clearAllTodos s)) (clearAllTodos s) := by
  refine ⟨?_, ?_, ?_⟩
  · intro hf
    unfold clearAllTodos
    cases hs : s.widget.currentSessionId with
    | none => rfl
    | some sessionId =>
      rw [hs] at hf
      have he : sessionId = "" := by simpa [sessionIdTruthy] using hf
      simp [he]
  · intro sessionId hs he
    unfold clearAllTodos
    simp only [hs, if_neg he]
    exact ⟨fun k => rfl, trivial⟩
  · cases hs : s.widget.currentSessionId with
    | none =>
      have e : clearAllTodos s = s := by unfold clearAllTodos; simp [hs]
      rw [e, e]
      exact sameObservable_refl s
    | some sessionId =>
      by_cases he : sessionId = ""
      · have e : clearAllTodos s = s := by unfold clearAllTodos; simp [hs, he]
        rw [e, e]
        exact sameObservable_refl s
      · have e1 := clearAllTodos_eq s sessionId hs he
        have hsid2 :
            ({ widget := hideAndFire s.widget
               storage := setTodoList s.storage sessionId [] } :
              ChatTodoSystem).widget.currentSessionId = some sessionId := hs
        have e2 := clearAllTodos_eq
          { widget := hideAndFire s.widget
            storage := setTodoList s.storage sessionId [] } sessionId hsid2 he
        rw [e1, e2]
        refine ⟨rfl, rfl, rfl, rfl, rfl, rfl, rfl, rfl, rfl, ?_⟩
        intro k
        by_cases hk : k = sessionId <;> simp [setTodoList, hk]

/-- C2 amended witness: on the falsy empty-string session the call is a
no-op; on the truthy session S1 it empties the stored list and leaves
the refreshed widget, and a second call changes nothing observable. -/
theorem c2_clear_all_witness :
    clearAllTodos emptySidSystem = emptySidSystem ∧
    (clearAllTodos demoSystem).storage "S1" = [] ∧
    (clearAllTodos demoSystem).widget =
      updateTodoDisplay (setTodoList demoSystem.storage "S1" [])
        demoSystem.widget ∧
    SameObservable (clearAllTodos (clearAllTodos demoSystem))
      (clearAllTodos demoSystem) := by
  refine ⟨(c2_clear_all emptySidSystem).1 rfl, ?_, ?_,
    (c2_clear_all demoSystem).2.2⟩
  · have h := ((c2_clear_all demoSystem).2.1 "S1" rfl (by decide)).1 "S1"
    simpa using h
  · exact ((c2_clear_all demoSystem).2.1 "S1" rfl (by decide)).2

end ChatTodoListWidget
